import Mathlib

/-!
Shallow embedding of `src/rebind.rs` (a single-shot Telegram-webhook rebinder).

The program:
  * queries each configured ngrok API (`NGROK_APIS`) for its tunnel list,
  * resolves each tunnel's local port against the static `PORT_TO_NAME` table,
    folding the results into a `HashMap<String, String>` of service → public URL,
  * for each discovered service, resolves `BOT_TOKEN_<NAME>` from the
    environment and, when present and non-empty, builds a `setWebhook` request
    — panicking on the `.unwrap()` at line 86 when the token makes the
    endpoint an invalid URI — and POSTs it.

Network responses, the environment, the URI validator and the HTTP layer are
modelled as explicit inputs; the run's observable effects (GET attempts, bind
POSTs, how the process exits) are returned as a trace.
-/

namespace Rebind

/-- Model of `serde_json::Value`.  The numeric payload is opaque to every operation the
program performs (`get`, `as_str`, `as_array`), so it is modelled as an `Int`
rather than the full i64/u64/f64 triple. -/
inductive Json where
  | null
  | bool (b : Bool)
  | num (n : Int)
  | str (s : String)
  | arr (elems : List Json)
  | obj (fields : List (String × Json))

/-- Embedding of `Value::get(key)` on an object (the program only indexes by string key);
`serde_json` maps have unique keys, so first-match lookup is faithful. -/
def Json.get (v : Json) (key : String) : Option Json :=
  match v with
  | Json.obj fields => (fields.find? (fun f => f.1 == key)).map (fun f => f.2)
  | _ => none

/-- Embedding of `Value::as_str`. -/
def Json.as_str : Json → Option String
  | Json.str s => some s
  | _ => none

/-- Embedding of `Value::as_array`. -/
def Json.as_array : Json → Option (List Json)
  | Json.arr elems => some elems
  | _ => none

/-- The static table `PORT_TO_NAME` (src/rebind.rs lines 10-14). -/
def PORT_TO_NAME : List (String × String) :=
  [("9977", "gpt4o"), ("9988", "mixtral"), ("9966", "deepseek")]

/-- The configured sources `NGROK_APIS` (src/rebind.rs lines 16-19). -/
def NGROK_APIS : List (String × String) :=
  [("main", "http://localhost:4040/api/tunnels"),
   ("alt", "http://localhost:4041/api/tunnels")]

/-- Rust `str::split(sep)` over the character list: splits at every separator
occurrence and always yields at least one (possibly empty) piece, exactly as
Rust's `Split` iterator does (`"".split(sep)` yields `[""]`). -/
def splitChar (sep : Char) : List Char → List (List Char)
  | [] => [[]]
  | c :: cs =>
    if c = sep then [] :: splitChar sep cs
    else
      match splitChar sep cs with
      | [] => [[c]]
      | h :: t => (c :: h) :: t

/-- Embedding of `addr.split(':').last()` (src/rebind.rs line 35): the substring after the
last `:`, or the whole string when there is none. -/
def portOf (addr : String) : Option String :=
  ((splitChar ':' addr.data).map (fun l => String.mk l)).getLast?

/-- Service → public-URL map (`HashMap<String, String>`), as an association
list with unique keys; only lookup semantics matter, so `mapInsert` replaces
any previous entry for the key. -/
def mapInsert (m : List (String × String)) (k v : String) : List (String × String) :=
  (k, v) :: m.filter (fun p => !(p.1 == k))

/-- Lookup in `HashMap::get` style. -/
def mapLookup (m : List (String × String)) (k : String) : Option String :=
  (m.find? (fun p => p.1 == k)).map (fun p => p.2)

/-- What the outside world (URI parser + network + body reader + JSON parser)
does for one source; each constructor is one error branch of
`get_public_urls` (src/rebind.rs lines 24-54), and `json v` is a successfully
parsed body. -/
inductive SourceEnv where
  | uriError        -- `api.parse::<Uri>()` failed (line 53); no GET is issued
  | getError        -- `client.get` returned Err (line 49)
  | badStatus       -- response status not 2xx (line 46)
  | bodyError       -- `to_bytes` returned Err (line 27)
  | notJson         -- `serde_json::from_slice` returned Err (line 28)
  | json (v : Json) -- parsed response body

/-- Embedding of `v.get("tunnels").and_then(|t| t.as_array())` (line 29). -/
def tunnelsOf (v : Json) : Option (List Json) :=
  (v.get "tunnels").bind Json.as_array

/-- Embedding of `t.get("public_url").and_then(|u| u.as_str())` (line 32). -/
def publicUrlOf (t : Json) : Option String :=
  (t.get "public_url").bind Json.as_str

/-- Embedding of `t.get("config").and_then(|c| c.get("addr")).and_then(|a| a.as_str())`
(line 33). -/
def addrOf (t : Json) : Option String :=
  ((t.get "config").bind (fun c => c.get "addr")).bind Json.as_str

/-- Body of the tunnel loop (src/rebind.rs lines 30-41): resolve the tunnel's
fields and port and, on a table hit, insert (name, public_url). -/
def processTunnel (urls : List (String × String)) (t : Json) : List (String × String) :=
  match publicUrlOf t, addrOf t with
  | some public_url, some addr =>
    match portOf addr with
    | some port =>
      match PORT_TO_NAME.find? (fun p => p.1 == port) with
      | some pr => mapInsert urls pr.2 public_url
      | none => urls
    | none => urls
  | _, _ => urls

/-- Body of the source loop (src/rebind.rs lines 24-54): every error branch
leaves `urls` unchanged; a parsed body contributes its tunnels in order. -/
def processSource (urls : List (String × String)) (e : SourceEnv) : List (String × String) :=
  match e with
  | SourceEnv.json v =>
    match tunnelsOf v with
    | some ts => ts.foldl processTunnel urls
    | none => urls
  | _ => urls

/-- Embedding of `get_public_urls` (src/rebind.rs lines 21-57): fold every configured
source, in order, into the service → URL map.  `net` gives the outside
world's behaviour per source URL. -/
def get_public_urls (net : String → SourceEnv) (apis : List (String × String)) :
    List (String × String) :=
  apis.foldl (fun urls p => processSource urls (net p.2)) []

/-- GET requests issued for one source: the GET happens exactly in the
branches following a successful URI parse (src/rebind.rs line 25). -/
def sourceGetAttempts (e : SourceEnv) : Nat :=
  match e with
  | SourceEnv.uriError => 0
  | _ => 1

/-- Per-source GET-attempt trace of one discovery pass, in source order. -/
def discoveryGets (net : String → SourceEnv) (apis : List (String × String)) : List Nat :=
  apis.map (fun p => sourceGetAttempts (net p.2))

/-- Rust `char::to_ascii_uppercase`: only `a`–`z` are mapped. -/
def asciiUpperChar (c : Char) : Char :=
  if 'a' ≤ c ∧ c ≤ 'z' then Char.ofNat (c.toNat - 32) else c

/-- Rust `str::to_ascii_uppercase`. -/
def asciiUpper (s : String) : String :=
  String.mk (s.data.map asciiUpperChar)

/-- The single outbound `setWebhook` request built at src/rebind.rs
lines 74-86: method, target URI, header, and the two JSON body fields. -/
structure BindRequest where
  method : String
  uri : String
  contentType : String
  bodyUrl : String
  bodySecret : String
deriving DecidableEq

/-- How one call of `bind_webhook` ends, up to the network:
  * `skipped` — absent or empty token, early return at src/rebind.rs
    lines 66-72, no request and no panic;
  * `panicked` — non-empty token, but `Request::builder().uri(endpoint)`
    stored an error because `endpoint` is not a valid URI, so the
    `.body(...).unwrap()` at line 86 panics before `client.request`
    (the `serde_json::to_vec` unwrap at line 85 cannot fail for this
    two-string payload and is not a separate branch);
  * `sent req` — the request was built and handed to `client.request`
    (line 88). -/
inductive BindOutcome where
  | skipped
  | panicked (endpoint : String)
  | sent (req : BindRequest)
deriving DecidableEq

/-- True exactly on the `panicked` outcome. -/
def isPanic : BindOutcome → Bool
  | BindOutcome.panicked _ => true
  | _ => false

/-- The request of a `sent` outcome, `none` otherwise. -/
def sentOf : BindOutcome → Option BindRequest
  | BindOutcome.sent req => some req
  | _ => none

/-- Embedding of `bind_webhook` (src/rebind.rs lines 59-100), up to the
network call: it reads `BOT_TOKEN_<name uppercased>`; an absent or empty
token means an early return with no request (lines 66-72); otherwise the
POST request of lines 74-86 is built — and the `.unwrap()` at line 86 panics
when the token-templated endpoint is not a valid URI.  `uriOk` is the http
crate's URI validation, external library code supplied as an environment
parameter (it is deterministic; in particular it rejects strings containing
a space). -/
def bind_webhook (getenv : String → Option String) (uriOk : String → Bool)
    (bot_name url tg_secret : String) : BindOutcome :=
  match getenv ("BOT_TOKEN_" ++ asciiUpper bot_name) with
  | some t =>
    if t = "" then BindOutcome.skipped
    else
      if uriOk ("https://api.telegram.org/bot" ++ t ++ "/setWebhook") then
        BindOutcome.sent ⟨"POST",
              "https://api.telegram.org/bot" ++ t ++ "/setWebhook",
              "application/json",
              url ++ "/webhook",
              tg_secret⟩
      else BindOutcome.panicked ("https://api.telegram.org/bot" ++ t ++ "/setWebhook")
  | none => BindOutcome.skipped

/-- Outcome of the platform's response to one bind POST
(src/rebind.rs lines 88-99); it only affects logging. -/
inductive NetResult where
  | success
  | badStatus (body : Option String)
  | transportError
deriving DecidableEq

/-- How the process ends: `normal` is exit status 0; the two panic
constructors are the non-zero abnormal exits — `missingSecretPanic` from the
`expect` at src/rebind.rs line 105 (before any network activity) and
`bindPanic` from the `.unwrap()` at line 86, mid-bind-loop. -/
inductive ExitKind where
  | normal
  | missingSecretPanic
  | bindPanic
deriving DecidableEq

/-- Observable effects of one run of `main`. -/
structure RunTrace where
  exit : ExitKind
  gets : List Nat
  binds : List (String × BindRequest)
  outcomes : List NetResult

/-- The bind loop of src/rebind.rs lines 114-116: services in map order; a
skipped service contributes nothing; a `panicked` construction kills the
process, so later services are not attempted (requests already issued stay
issued); a `sent` request is recorded and the loop continues.  Returns the
issued requests in order and whether the loop panicked. -/
def runBinds (getenv : String → Option String) (uriOk : String → Bool) (tg_secret : String) :
    List (String × String) → List (String × BindRequest) × Bool
  | [] => ([], false)
  | p :: rest =>
    match bind_webhook getenv uriOk p.1 p.2 tg_secret with
    | BindOutcome.skipped => runBinds getenv uriOk tg_secret rest
    | BindOutcome.panicked _ => ([], true)
    | BindOutcome.sent req =>
      ((p.1, req) :: (runBinds getenv uriOk tg_secret rest).1,
       (runBinds getenv uriOk tg_secret rest).2)

/-- Embedding of `main` (src/rebind.rs lines 102-117).  `getenv` is the
environment after `dotenv` merging (a non-unicode value behaves as absent, as
`env::var` errors then too).  `expect` on a missing `TG_SECRET` panics before
the sleep, the client construction and any request; otherwise discovery runs
over the two compiled-in sources and the bind loop runs over the discovered
map, possibly dying mid-loop on a request-construction panic. -/
def main (getenv : String → Option String) (uriOk : String → Bool)
    (net : String → SourceEnv) (bindNet : BindRequest → NetResult) : RunTrace :=
  match getenv "TG_SECRET" with
  | none => ⟨ExitKind.missingSecretPanic, [], [], []⟩
  | some tg_secret =>
    let br := runBinds getenv uriOk tg_secret (get_public_urls net NGROK_APIS)
    ⟨if br.2 then ExitKind.bindPanic else ExitKind.normal,
     discoveryGets net NGROK_APIS, br.1, br.1.map (fun b => bindNet b.2)⟩

/-- The (name, public_url) pair one tunnel resolves to (`none` on a missing
field or a table miss); `processTunnel` inserts exactly this
(`processTunnel_eq_service` below). -/
def tunnelService (t : Json) : Option (String × String) :=
  (publicUrlOf t).bind (fun public_url =>
    (addrOf t).bind (fun addr =>
      (portOf addr).bind (fun port =>
        (PORT_TO_NAME.find? (fun p => p.1 == port)).map (fun pr => (pr.2, public_url)))))

/-- All pairs one source contributes, in tunnel order. -/
def sourceResolved (e : SourceEnv) : List (String × String) :=
  match e with
  | SourceEnv.json v =>
    match tunnelsOf v with
    | some ts => ts.filterMap tunnelService
    | none => []
  | _ => []

/-- All pairs a discovery pass inserts, in processing order (source order,
then listed tunnel order within a source). -/
def resolvedPairs (net : String → SourceEnv) (apis : List (String × String)) :
    List (String × String) :=
  (apis.map (fun p => sourceResolved (net p.2))).flatten

/-! ### Concrete inputs used by witnesses and counterexamples -/

/-- A tunnel on port 9977 with public URL `A` (Scenario D, first source). -/
def tunnelA : Json :=
  Json.obj [("public_url", Json.str "A"),
            ("config", Json.obj [("addr", Json.str "localhost:9977")])]

/-- A tunnel on port 9977 with public URL `B` (Scenario D, second source). -/
def tunnelB : Json :=
  Json.obj [("public_url", Json.str "B"),
            ("config", Json.obj [("addr", Json.str "127.0.0.1:9977")])]

def bodyA : Json := Json.obj [("tunnels", Json.arr [tunnelA])]

def bodyB : Json := Json.obj [("tunnels", Json.arr [tunnelB])]

/-- Scenario D network: the `main` source reports URL `A`, the `alt` source
URL `B`, both for port 9977. -/
def scenarioDNet : String → SourceEnv := fun api =>
  if api = "http://localhost:4040/api/tunnels" then SourceEnv.json bodyA
  else SourceEnv.json bodyB

/-- Environment with a shared secret and a token for `gpt4o` only. -/
def scenarioDEnv : String → Option String := fun v =>
  if v = "TG_SECRET" then some "shh"
  else if v = "BOT_TOKEN_GPT4O" then some "tok" else none

/-- The one request Scenario D issues. -/
def scenarioDReq : BindRequest :=
  ⟨"POST", "https://api.telegram.org/bottok/setWebhook", "application/json",
   "B/webhook", "shh"⟩

/-- Environment whose shared secret is set but empty. -/
def emptySecretEnv : String → Option String := fun v =>
  if v = "TG_SECRET" then some "" else none

/-- Environment with a token for `mixtral` only and no shared secret. -/
def c2Env : String → Option String := fun v =>
  if v = "BOT_TOKEN_MIXTRAL" then some "tok2" else none

def c2Req : BindRequest :=
  ⟨"POST", "https://api.telegram.org/bottok2/setWebhook", "application/json",
   "https://abc.example/webhook", "sec"⟩

/-- Network where the `alt` source returns a non-JSON body and the `main`
source reports `tunnelA`. -/
def failNet : String → SourceEnv := fun api =>
  if api = "http://localhost:4041/api/tunnels" then SourceEnv.notJson
  else SourceEnv.json bodyA

/-- Environment with a shared secret, a `mixtral` token, and no `gpt4o`
token. -/
def c5Env : String → Option String := fun v =>
  if v = "TG_SECRET" then some "shh"
  else if v = "BOT_TOKEN_MIXTRAL" then some "mtok" else none

/-- Concrete URI validity check: rejects any string containing a space, as
the http crate does.  Used as the `uriOk` environment of the concrete runs
below. -/
def spaceUriOk : String → Bool := fun u => !(u.data.contains ' ')

/-- Environment with a shared secret and a `gpt4o` token containing a space,
which makes the Telegram endpoint an invalid URI. -/
def badTokenEnv : String → Option String := fun v =>
  if v = "TG_SECRET" then some "shh"
  else if v = "BOT_TOKEN_GPT4O" then some "a b" else none

/-! ### Map lemmas -/

lemma find?_key_filter (m : List (String × String)) (a k : String) (h : k ≠ a) :
    (m.filter (fun p => !(p.1 == a))).find? (fun p => p.1 == k) =
      m.find? (fun p => p.1 == k) := by
  induction m with
  | nil => rfl
  | cons x xs ih =>
    by_cases hx : x.1 = a
    · have hk : ¬(a = k) := fun hh => h hh.symm
      simp [List.filter_cons, hx, hk, ih]
    · by_cases hk : x.1 = k
      · simp [List.filter_cons, hx, hk, h]
      · simp [List.filter_cons, hx, hk, ih]

lemma mapInsert_lookup (m : List (String × String)) (a v k : String) :
    mapLookup (mapInsert m a v) k = if k = a then some v else mapLookup m k := by
  by_cases h : k = a
  · simp [mapLookup, mapInsert, List.find?_cons_of_pos, h]
  · have ha : ¬(a = k) := fun hh => h hh.symm
    simp [mapLookup, mapInsert, List.find?_cons_of_neg, ha, find?_key_filter m a k h, h]

lemma lookup_foldl_insert (ps : List (String × String)) (m : List (String × String)) (k : String) :
    mapLookup (ps.foldl (fun acc p => mapInsert acc p.1 p.2) m) k =
      match ps.reverse.find? (fun p => p.1 == k) with
      | some p => some p.2
      | none => mapLookup m k := by
  induction ps generalizing m with
  | nil => simp
  | cons x xs ih =>
    rw [List.foldl_cons, ih, List.reverse_cons, List.find?_append]
    cases hx : xs.reverse.find? (fun p => p.1 == k) with
    | some p => rfl
    | none =>
      show mapLookup (mapInsert m x.1 x.2) k = _
      rw [mapInsert_lookup]
      by_cases h : x.1 = k
      · rw [if_pos h.symm]
        have hb : ((x.1 == k) : Bool) = true := by simp [h]
        simp [Option.or, List.find?, hb]
      · rw [if_neg (fun hh => h hh.symm)]
        have hb : ((x.1 == k) : Bool) = false := by simp [h]
        simp [Option.or, List.find?, hb]

/-! ### Discovery as a fold over the resolved pairs -/

lemma processTunnel_eq_service (urls : List (String × String)) (t : Json) :
    processTunnel urls t =
      match tunnelService t with
      | some nu => mapInsert urls nu.1 nu.2
      | none => urls := by
  unfold processTunnel tunnelService
  cases hp : publicUrlOf t with
  | none => cases addrOf t <;> rfl
  | some pu =>
    cases ha : addrOf t with
    | none => rfl
    | some addr =>
      simp only [Option.some_bind]
      cases hq : portOf addr with
      | none => rfl
      | some port =>
        simp only [Option.some_bind]
        cases hf : PORT_TO_NAME.find? (fun p : String × String => p.1 == port) with
        | none => rfl
        | some pr => rfl

lemma foldl_processTunnel_eq (ts : List Json) (m : List (String × String)) :
    ts.foldl processTunnel m =
      (ts.filterMap tunnelService).foldl (fun acc p => mapInsert acc p.1 p.2) m := by
  induction ts generalizing m with
  | nil => rfl
  | cons t ts ih =>
    rw [List.foldl_cons, ih, List.filterMap_cons]
    cases h : tunnelService t with
    | none => rw [processTunnel_eq_service, h]
    | some nu => rw [processTunnel_eq_service, h, List.foldl_cons]

lemma processSource_eq_resolved (m : List (String × String)) (e : SourceEnv) :
    processSource m e =
      (sourceResolved e).foldl (fun acc p => mapInsert acc p.1 p.2) m := by
  cases e with
  | json v =>
    show (match tunnelsOf v with
          | some ts => ts.foldl processTunnel m
          | none => m) =
        List.foldl (fun acc p => mapInsert acc p.1 p.2) m
          (match tunnelsOf v with
          | some ts => ts.filterMap tunnelService
          | none => ([] : List (String × String)))
    cases tunnelsOf v with
    | none => rfl
    | some ts => exact foldl_processTunnel_eq ts m
  | uriError => rfl
  | getError => rfl
  | badStatus => rfl
  | bodyError => rfl
  | notJson => rfl

lemma get_public_urls_eq_foldl (net : String → SourceEnv) (apis : List (String × String)) :
    get_public_urls net apis =
      (resolvedPairs net apis).foldl (fun acc p => mapInsert acc p.1 p.2) [] := by
  unfold get_public_urls resolvedPairs
  generalize ([] : List (String × String)) = m
  induction apis generalizing m with
  | nil => rfl
  | cons x xs ih =>
    rw [List.foldl_cons, List.map_cons, List.flatten_cons, List.foldl_append,
      processSource_eq_resolved, ih]

/-! ### Characterisations -/

lemma tunnelService_eq_some_iff (t : Json) (n u : String) :
    tunnelService t = some (n, u) ↔
      ∃ addr port pr, publicUrlOf t = some u ∧ addrOf t = some addr ∧
        portOf addr = some port ∧
        PORT_TO_NAME.find? (fun q => q.1 == port) = some pr ∧ pr.2 = n := by
  simp only [tunnelService, Option.bind_eq_some, Option.map_eq_some', Prod.mk.injEq]
  constructor
  · rintro ⟨pu, hpu, addr, haddr, port, hport, pr, hpr, hn, hu⟩
    exact ⟨addr, port, pr, hu ▸ hpu, haddr, hport, hpr, hn⟩
  · rintro ⟨addr, port, pr, hpu, haddr, hport, hpr, hn⟩
    exact ⟨u, hpu, addr, haddr, port, hport, pr, hpr, hn, rfl⟩

lemma portToName_find_eq_some_iff (port : String) (pr : String × String) :
    PORT_TO_NAME.find? (fun q => q.1 == port) = some pr ↔
      pr ∈ PORT_TO_NAME ∧ pr.1 = port := by
  constructor
  · intro h
    exact ⟨List.mem_of_find?_eq_some h, by simpa using List.find?_some h⟩
  · rintro ⟨hmem, hport⟩
    subst hport
    simp only [PORT_TO_NAME, List.mem_cons, List.not_mem_nil, or_false] at hmem
    rcases hmem with rfl | rfl | rfl <;> decide

lemma mem_sourceResolved (e : SourceEnv) (p : String × String) :
    p ∈ sourceResolved e ↔
      ∃ v ts, e = SourceEnv.json v ∧ tunnelsOf v = some ts ∧
        ∃ t ∈ ts, tunnelService t = some p := by
  cases e with
  | json v =>
    simp only [sourceResolved, SourceEnv.json.injEq]
    cases htv : tunnelsOf v with
    | none =>
      constructor
      · intro h; cases h
      · rintro ⟨v', ts, rfl, hts, _⟩
        rw [htv] at hts; cases hts
    | some ts =>
      rw [List.mem_filterMap]
      constructor
      · rintro ⟨t, ht, hp⟩
        exact ⟨v, ts, rfl, htv, t, ht, hp⟩
      · rintro ⟨v', ts', rfl, hts, t, ht, hp⟩
        rw [htv] at hts
        cases hts
        exact ⟨t, ht, hp⟩
  | uriError => simp [sourceResolved]
  | getError => simp [sourceResolved]
  | badStatus => simp [sourceResolved]
  | bodyError => simp [sourceResolved]
  | notJson => simp [sourceResolved]

lemma mem_resolvedPairs (net : String → SourceEnv) (apis : List (String × String))
    (p : String × String) :
    p ∈ resolvedPairs net apis ↔ ∃ src ∈ apis, p ∈ sourceResolved (net src.2) := by
  simp only [resolvedPairs, List.mem_flatten, List.mem_map, Prod.exists]
  constructor
  · rintro ⟨l, ⟨a, b, hab, rfl⟩, hp⟩
    exact ⟨a, b, hab, hp⟩
  · rintro ⟨a, b, hab, hp⟩
    exact ⟨_, ⟨a, b, hab, rfl⟩, hp⟩

lemma lookup_isSome_iff (net : String → SourceEnv) (apis : List (String × String)) (k : String) :
    (mapLookup (get_public_urls net apis) k).isSome = true ↔
      ∃ p ∈ resolvedPairs net apis, p.1 = k := by
  rw [get_public_urls_eq_foldl, lookup_foldl_insert]
  cases hx : (resolvedPairs net apis).reverse.find? (fun p => p.1 == k) with
  | some p =>
    simp only [Option.isSome_some, true_iff]
    refine ⟨p, List.mem_reverse.mp (List.mem_of_find?_eq_some hx), ?_⟩
    simpa using List.find?_some hx
  | none =>
    rw [List.find?_eq_none] at hx
    constructor
    · intro h; simp [mapLookup] at h
    · rintro ⟨p, hmem, hk⟩
      exact absurd (by simp [hk] : (p.1 == k) = true)
        (by simpa using hx p (List.mem_reverse.mpr hmem))

/-! ### Key uniqueness of the discovered map -/

lemma mapInsert_keys_nodup (m : List (String × String)) (a v : String)
    (h : (m.map Prod.fst).Nodup) : ((mapInsert m a v).map Prod.fst).Nodup := by
  unfold mapInsert
  rw [List.map_cons, List.nodup_cons]
  constructor
  · intro hmem
    rw [List.mem_map] at hmem
    obtain ⟨p, hp, hpa⟩ := hmem
    have := List.of_mem_filter hp
    simp [hpa] at this
  · exact ((List.filter_sublist m).map Prod.fst).nodup h

lemma foldl_insert_keys_nodup (ps : List (String × String)) (m : List (String × String))
    (h : (m.map Prod.fst).Nodup) :
    ((ps.foldl (fun acc p => mapInsert acc p.1 p.2) m).map Prod.fst).Nodup := by
  induction ps generalizing m with
  | nil => exact h
  | cons x xs ih => exact ih _ (mapInsert_keys_nodup m x.1 x.2 h)

lemma get_public_urls_keys_nodup (net : String → SourceEnv) (apis : List (String × String)) :
    ((get_public_urls net apis).map Prod.fst).Nodup := by
  rw [get_public_urls_eq_foldl]
  exact foldl_insert_keys_nodup _ _ (by simp)

lemma filter_key_of_nodup (m : List (String × String)) (k v : String)
    (hnd : (m.map Prod.fst).Nodup) (hl : mapLookup m k = some v) :
    m.filter (fun p => p.1 == k) = [(k, v)] := by
  induction m with
  | nil => simp [mapLookup] at hl
  | cons x xs ih =>
    rw [List.map_cons, List.nodup_cons] at hnd
    by_cases hx : x.1 = k
    · have hv : x.2 = v := by
        unfold mapLookup at hl
        rw [List.find?_cons] at hl
        have hb : (x.1 == k) = true := by simp [hx]
        rw [hb] at hl
        simpa using hl
      have hrest : xs.filter (fun p => p.1 == k) = [] := by
        rw [List.filter_eq_nil_iff]
        intro p hp
        simp only [beq_iff_eq]
        intro hpk
        have hmm : p.1 ∈ xs.map Prod.fst := List.mem_map_of_mem Prod.fst hp
        rw [hpk, ← hx] at hmm
        exact hnd.1 hmm
      rw [List.filter_cons_of_pos (by simp [hx]), hrest]
      have hxkv : x = (k, v) := Prod.ext hx hv
      rw [hxkv]
    · rw [List.filter_cons_of_neg (by simp [hx])]
      refine ih hnd.2 ?_
      unfold mapLookup at hl ⊢
      rw [List.find?_cons] at hl
      have hb : (x.1 == k) = false := by simp [hx]
      rw [hb] at hl
      exact hl

/-! ### Bind-phase lemmas -/

lemma filterMap_key_filter (urls : List (String × String))
    (g : String × String → Option BindRequest) (n : String) :
    (urls.filterMap (fun p => (g p).map (fun r => (p.1, r)))).filter (fun b => b.1 == n) =
      (urls.filter (fun p => p.1 == n)).filterMap (fun p => (g p).map (fun r => (p.1, r))) := by
  induction urls with
  | nil => rfl
  | cons x xs ih =>
    cases hg : g x with
    | none =>
      by_cases hx : x.1 = n <;>
        simp [List.filterMap_cons, hg, List.filter_cons, hx, ih]
    | some r =>
      by_cases hx : x.1 = n <;>
        simp [List.filterMap_cons, hg, List.filter_cons, hx, ih]

lemma bind_webhook_sent_iff (getenv : String → Option String) (uriOk : String → Bool)
    (bot_name url tg_secret : String) (req : BindRequest) :
    bind_webhook getenv uriOk bot_name url tg_secret = BindOutcome.sent req ↔
      ∃ t, getenv ("BOT_TOKEN_" ++ asciiUpper bot_name) = some t ∧ t ≠ "" ∧
        uriOk ("https://api.telegram.org/bot" ++ t ++ "/setWebhook") = true ∧
        req = ⟨"POST", "https://api.telegram.org/bot" ++ t ++ "/setWebhook",
               "application/json", url ++ "/webhook", tg_secret⟩ := by
  unfold bind_webhook
  cases hg : getenv ("BOT_TOKEN_" ++ asciiUpper bot_name) with
  | none => simp
  | some t =>
    by_cases ht : t = ""
    · simp [ht]
    · simp only [ht, if_false]
      by_cases hu : uriOk ("https://api.telegram.org/bot" ++ t ++ "/setWebhook") = true
      · simp only [hu, if_true, BindOutcome.sent.injEq]
        constructor
        · intro h; exact ⟨t, rfl, ht, hu, h.symm⟩
        · rintro ⟨t', ht', hne, hu', hreq⟩
          cases ht'
          exact hreq.symm
      · rw [if_neg hu]
        constructor
        · intro h; cases h
        · rintro ⟨t', ht', hne, hu', hreq⟩
          cases ht'
          exact absurd hu' hu

lemma bind_webhook_skipped (getenv : String → Option String) (uriOk : String → Bool)
    (bot_name url tg_secret : String)
    (h : getenv ("BOT_TOKEN_" ++ asciiUpper bot_name) = none ∨
         getenv ("BOT_TOKEN_" ++ asciiUpper bot_name) = some "") :
    bind_webhook getenv uriOk bot_name url tg_secret = BindOutcome.skipped := by
  unfold bind_webhook
  rcases h with h | h
  · rw [h]
  · rw [h]; simp

lemma runBinds_no_panic (getenv : String → Option String) (uriOk : String → Bool)
    (tg_secret : String) (urls : List (String × String))
    (h : ∀ p ∈ urls, isPanic (bind_webhook getenv uriOk p.1 p.2 tg_secret) = false) :
    runBinds getenv uriOk tg_secret urls =
      (urls.filterMap (fun p =>
        (sentOf (bind_webhook getenv uriOk p.1 p.2 tg_secret)).map (fun r => (p.1, r))),
       false) := by
  induction urls with
  | nil => rfl
  | cons x xs ih =>
    have hx := h x (List.mem_cons_self x xs)
    have hxs : ∀ p ∈ xs, isPanic (bind_webhook getenv uriOk p.1 p.2 tg_secret) = false :=
      fun p hp => h p (List.mem_cons_of_mem x hp)
    cases hb : bind_webhook getenv uriOk x.1 x.2 tg_secret with
    | skipped => simp [runBinds, hb, List.filterMap_cons, sentOf, ih hxs]
    | panicked ep => rw [hb] at hx; simp [isPanic] at hx
    | sent req => simp [runBinds, hb, List.filterMap_cons, sentOf, ih hxs]

lemma runBinds_panicked_iff (getenv : String → Option String) (uriOk : String → Bool)
    (tg_secret : String) (urls : List (String × String)) :
    (runBinds getenv uriOk tg_secret urls).2 = true ↔
      ∃ p ∈ urls, isPanic (bind_webhook getenv uriOk p.1 p.2 tg_secret) = true := by
  induction urls with
  | nil => simp [runBinds]
  | cons x xs ih =>
    cases hb : bind_webhook getenv uriOk x.1 x.2 tg_secret with
    | skipped => simp [runBinds, hb, ih, isPanic]
    | panicked ep => simp [runBinds, hb, isPanic]
    | sent req => simp [runBinds, hb, ih, isPanic]

lemma mem_runBinds_sent (getenv : String → Option String) (uriOk : String → Bool)
    (tg_secret : String) (urls : List (String × String)) (name : String) (req : BindRequest)
    (h : (name, req) ∈ (runBinds getenv uriOk tg_secret urls).1) :
    ∃ url, (name, url) ∈ urls ∧
      bind_webhook getenv uriOk name url tg_secret = BindOutcome.sent req := by
  induction urls with
  | nil => cases h
  | cons x xs ih =>
    cases hb : bind_webhook getenv uriOk x.1 x.2 tg_secret with
    | skipped =>
      simp only [runBinds, hb] at h
      obtain ⟨url, hmem, hsent⟩ := ih h
      exact ⟨url, List.mem_cons_of_mem x hmem, hsent⟩
    | panicked ep =>
      simp only [runBinds, hb] at h
      cases h
    | sent r =>
      simp only [runBinds, hb] at h
      rcases List.mem_cons.mp h with heq | hmem
      · have h1 : name = x.1 := congrArg Prod.fst heq
        have h2 : req = r := congrArg Prod.snd heq
        subst h1; subst h2
        exact ⟨x.2, by simp, hb⟩
      · obtain ⟨url, hmem2, hsent⟩ := ih hmem
        exact ⟨url, List.mem_cons_of_mem x hmem2, hsent⟩

/-! ### Totality of port extraction -/

lemma splitChar_ne_nil (sep : Char) (l : List Char) : splitChar sep l ≠ [] := by
  induction l with
  | nil => simp [splitChar]
  | cons c cs ih =>
    unfold splitChar
    by_cases h : c = sep
    · simp [h]
    · rw [if_neg h]
      cases hs : splitChar sep cs <;> simp

lemma portOf_ne_none (addr : String) : portOf addr ≠ none := by
  unfold portOf
  intro h
  rw [List.getLast?_eq_none_iff] at h
  rw [List.map_eq_nil_iff] at h
  exact splitChar_ne_nil ':' addr.data h

/-! ### The run with the secret present -/

lemma main_exit_some (getenv : String → Option String) (uriOk : String → Bool)
    (net : String → SourceEnv) (bindNet : BindRequest → NetResult) (s : String)
    (h : getenv "TG_SECRET" = some s) :
    (main getenv uriOk net bindNet).exit =
      if (runBinds getenv uriOk s (get_public_urls net NGROK_APIS)).2 then ExitKind.bindPanic
      else ExitKind.normal := by
  simp only [main, h]

lemma main_gets (getenv : String → Option String) (uriOk : String → Bool)
    (net : String → SourceEnv) (bindNet : BindRequest → NetResult) (s : String)
    (h : getenv "TG_SECRET" = some s) :
    (main getenv uriOk net bindNet).gets = discoveryGets net NGROK_APIS := by
  simp only [main, h]

lemma main_binds (getenv : String → Option String) (uriOk : String → Bool)
    (net : String → SourceEnv) (bindNet : BindRequest → NetResult) (s : String)
    (h : getenv "TG_SECRET" = some s) :
    (main getenv uriOk net bindNet).binds =
      (runBinds getenv uriOk s (get_public_urls net NGROK_APIS)).1 := by
  simp only [main, h]


/-! ## Claim theorems -/

/-- C1: a service name appears in the discovery mapping iff some tunnel in
some source's tunnel-list response carries both a `public_url` field and a
`config.addr` field whose port — the substring after the last `:` in `addr`,
as the code extracts it — exactly string-matches a `PORT_TO_NAME` entry whose
service name is that name; tunnels with unmatched ports or missing fields
contribute nothing. -/
theorem discovery_service_iff (net : String → SourceEnv) (apis : List (String × String))
    (name : String) :
    (mapLookup (get_public_urls net apis) name).isSome = true ↔
      ∃ src ∈ apis, ∃ v ts, net src.2 = SourceEnv.json v ∧ tunnelsOf v = some ts ∧
        ∃ t ∈ ts, ∃ public_url addr port,
          publicUrlOf t = some public_url ∧ addrOf t = some addr ∧
          portOf addr = some port ∧
          ∃ entry ∈ PORT_TO_NAME, entry.1 = port ∧ entry.2 = name := by
  rw [lookup_isSome_iff]
  constructor
  · rintro ⟨p, hmem, hk⟩
    rw [mem_resolvedPairs] at hmem
    obtain ⟨src, hsrc, hp⟩ := hmem
    rw [mem_sourceResolved] at hp
    obtain ⟨v, ts, hjson, hts, t, ht, hserv⟩ := hp
    obtain ⟨p1, p2⟩ := p
    have hk1 : p1 = name := hk
    subst hk1
    rw [tunnelService_eq_some_iff] at hserv
    obtain ⟨addr, port, pr, hpu, haddr, hport, hfind, hprn⟩ := hserv
    rw [portToName_find_eq_some_iff] at hfind
    exact ⟨src, hsrc, v, ts, hjson, hts, t, ht, p2, addr, port, hpu, haddr, hport,
      pr, hfind.1, hfind.2, hprn⟩
  · rintro ⟨src, hsrc, v, ts, hjson, hts, t, ht, public_url, addr, port, hpu, haddr, hport,
      entry, hentry, hport1, hname⟩
    refine ⟨(name, public_url), ?_, rfl⟩
    rw [mem_resolvedPairs]
    refine ⟨src, hsrc, ?_⟩
    rw [mem_sourceResolved]
    refine ⟨v, ts, hjson, hts, t, ht, ?_⟩
    rw [tunnelService_eq_some_iff]
    exact ⟨addr, port, entry, hpu, haddr, hport,
      (portToName_find_eq_some_iff port entry).mpr ⟨hentry, hport1⟩, hname⟩

/-- C2: every bind attempt that reaches the network call — `bind_webhook`
with a resolved, non-empty token — produces a POST with a
`Content-Type: application/json` header, body `url` equal to
`publicURL ++ "/webhook"`, body `secret_token` equal to the configured shared
secret, and target endpoint equal to the fixed Telegram template instantiated
with the service's token. -/
theorem bind_request_shape (getenv : String → Option String) (uriOk : String → Bool)
    (bot_name public_url tg_secret : String) (req : BindRequest)
    (h : bind_webhook getenv uriOk bot_name public_url tg_secret = BindOutcome.sent req) :
    req.method = "POST" ∧ req.contentType = "application/json" ∧
    req.bodyUrl = public_url ++ "/webhook" ∧ req.bodySecret = tg_secret ∧
    ∃ token, getenv ("BOT_TOKEN_" ++ asciiUpper bot_name) = some token ∧ token ≠ "" ∧
      req.uri = "https://api.telegram.org/bot" ++ token ++ "/setWebhook" := by
  rw [bind_webhook_sent_iff] at h
  obtain ⟨t, hg, hne, hu, rfl⟩ := h
  exact ⟨rfl, rfl, rfl, rfl, t, hg, hne, rfl⟩

/-- Witness for C2 at a concrete environment and service. -/
theorem bind_request_shape_witness :
    c2Req.method = "POST" ∧ c2Req.contentType = "application/json" ∧
    c2Req.bodyUrl = "https://abc.example" ++ "/webhook" ∧ c2Req.bodySecret = "sec" ∧
    ∃ token, c2Env ("BOT_TOKEN_" ++ asciiUpper "mixtral") = some token ∧ token ≠ "" ∧
      c2Req.uri = "https://api.telegram.org/bot" ++ token ++ "/setWebhook" :=
  bind_request_shape c2Env spaceUriOk "mixtral" "https://abc.example" "sec" c2Req (by decide)

/-- C4: with `TG_SECRET` absent the process panics on `expect` before the
sleep, the client construction and any network request: no discovery GET and
no bind POST is issued. -/
theorem missing_secret_aborts (getenv : String → Option String) (uriOk : String → Bool)
    (net : String → SourceEnv) (bindNet : BindRequest → NetResult)
    (h : getenv "TG_SECRET" = none) :
    (main getenv uriOk net bindNet).exit = ExitKind.missingSecretPanic ∧
    (main getenv uriOk net bindNet).gets = [] ∧
    (main getenv uriOk net bindNet).binds = [] := by
  simp [main, h]

/-- Witness for C4 with every environment variable unset. -/
theorem missing_secret_aborts_witness :
    (main (fun _ => none) spaceUriOk (fun _ => SourceEnv.getError)
        (fun _ => NetResult.success)).exit = ExitKind.missingSecretPanic ∧
    (main (fun _ => none) spaceUriOk (fun _ => SourceEnv.getError)
        (fun _ => NetResult.success)).gets = [] ∧
    (main (fun _ => none) spaceUriOk (fun _ => SourceEnv.getError)
        (fun _ => NetResult.success)).binds = [] :=
  missing_secret_aborts (fun _ => none) spaceUriOk (fun _ => SourceEnv.getError)
    (fun _ => NetResult.success) rfl

/-- C8 counterexample: with `TG_SECRET = "shh"` present but
`BOT_TOKEN_GPT4O = "a b"`, the templated endpoint contains a space, the URI
parser rejects it, and the `.unwrap()` at src/rebind.rs line 86 panics: the
run ends in a non-zero abnormal exit although the shared secret is present,
contrary to the claim that non-zero exits occur only when the secret is
missing. -/
theorem exit_status_cex :
    badTokenEnv "TG_SECRET" = some "shh" ∧
    (main badTokenEnv spaceUriOk failNet (fun _ => NetResult.success)).exit
      = ExitKind.bindPanic := by
  decide

/-- C8 amended: the secret-missing panic happens exactly when `TG_SECRET` is
absent, and a run with the secret present exits 0 — for every combination of
discovery outcomes, credential misses and bind response failures — if and
only if no resolved token makes its endpoint an invalid URI (otherwise the
request-construction `unwrap` at line 86 panics and the exit is abnormal). -/
theorem exit_status_characterized (getenv : String → Option String) (uriOk : String → Bool)
    (net : String → SourceEnv) (bindNet : BindRequest → NetResult) :
    ((main getenv uriOk net bindNet).exit = ExitKind.missingSecretPanic ↔
      getenv "TG_SECRET" = none) ∧
    (∀ s, getenv "TG_SECRET" = some s →
      ((main getenv uriOk net bindNet).exit = ExitKind.normal ↔
        ∀ p ∈ get_public_urls net NGROK_APIS,
          isPanic (bind_webhook getenv uriOk p.1 p.2 s) = false)) := by
  constructor
  · cases h : getenv "TG_SECRET" with
    | none => simp [main, h]
    | some s =>
      rw [main_exit_some getenv uriOk net bindNet s h]
      constructor
      · intro hx
        by_cases hb : (runBinds getenv uriOk s (get_public_urls net NGROK_APIS)).2
        · rw [if_pos hb] at hx; cases hx
        · rw [if_neg hb] at hx; cases hx
      · intro hn
        cases hn
  · intro s hs
    rw [main_exit_some getenv uriOk net bindNet s hs]
    by_cases hb : (runBinds getenv uriOk s (get_public_urls net NGROK_APIS)).2
    · rw [if_pos hb]
      constructor
      · intro hx; cases hx
      · intro hall
        rw [runBinds_panicked_iff] at hb
        obtain ⟨p, hp, hpanic⟩ := hb
        rw [hall p hp] at hpanic
        cases hpanic
    · rw [if_neg hb]
      have hfl : ∀ p ∈ get_public_urls net NGROK_APIS,
          isPanic (bind_webhook getenv uriOk p.1 p.2 s) = false := by
        intro p hp
        cases hcb : isPanic (bind_webhook getenv uriOk p.1 p.2 s) with
        | false => rfl
        | true =>
          exact absurd ((runBinds_panicked_iff getenv uriOk s _).mpr ⟨p, hp, hcb⟩) hb
      exact ⟨fun _ => hfl, fun _ => rfl⟩

/-- Witness for C8's amended claim: Scenario D's run with a well-formed token
exits normally. -/
theorem exit_status_characterized_witness :
    (main scenarioDEnv spaceUriOk scenarioDNet (fun _ => NetResult.success)).exit
      = ExitKind.normal := by
  have h := exit_status_characterized scenarioDEnv spaceUriOk scenarioDNet
    (fun _ => NetResult.success)
  exact (h.2 "shh" (by decide)).mpr (by decide)


/-- C3 counterexample: both of Scenario D's sources resolve port 9977 to
`gpt4o` (two entries in the resolved stream), the credential resolves to the
non-empty token `"a b"`, yet zero bind calls are made for `gpt4o` — the
request construction panics at src/rebind.rs line 86 before `client.request`
because the templated endpoint contains a space — contrary to the claim that
exactly one bind call is made for the duplicated service. -/
theorem last_tunnel_wins_cex :
    2 ≤ ((resolvedPairs scenarioDNet NGROK_APIS).filter (fun p => p.1 == "gpt4o")).length ∧
    badTokenEnv "TG_SECRET" = some "shh" ∧
    badTokenEnv ("BOT_TOKEN_" ++ asciiUpper "gpt4o") = some "a b" ∧
    ((main badTokenEnv spaceUriOk scenarioDNet
        (fun _ => NetResult.success)).binds.filter (fun b => b.1 == "gpt4o")) = [] := by
  decide

/-- C3 amended: when several tunnels (across sources or within one) resolve
to the same service name, the final mapping holds the public URL of the
tunnel processed last — sources in configured order, tunnels in listed order
— unconditionally; and provided the service's credential resolves to a token
whose templated endpoint is a valid URI (the request construction does not
panic, for it or for any other discovered service), exactly one bind call is
made for it, using that last URL. -/
theorem last_tunnel_wins (getenv : String → Option String) (uriOk : String → Bool)
    (net : String → SourceEnv) (bindNet : BindRequest → NetResult)
    (tg_secret n u : String) (req : BindRequest)
    (hsec : getenv "TG_SECRET" = some tg_secret)
    (hdup : 2 ≤ ((resolvedPairs net NGROK_APIS).filter (fun p => p.1 == n)).length)
    (hlast : (resolvedPairs net NGROK_APIS).reverse.find? (fun p => p.1 == n) = some (n, u))
    (htok : bind_webhook getenv uriOk n u tg_secret = BindOutcome.sent req)
    (hsafe : ∀ p ∈ get_public_urls net NGROK_APIS,
      isPanic (bind_webhook getenv uriOk p.1 p.2 tg_secret) = false) :
    mapLookup (get_public_urls net NGROK_APIS) n = some u ∧
    ((main getenv uriOk net bindNet).binds.filter (fun b => b.1 == n)) = [(n, req)] ∧
    req.bodyUrl = u ++ "/webhook" := by
  have hmap : mapLookup (get_public_urls net NGROK_APIS) n = some u := by
    rw [get_public_urls_eq_foldl, lookup_foldl_insert, hlast]
  refine ⟨hmap, ?_, ?_⟩
  · rw [main_binds getenv uriOk net bindNet tg_secret hsec,
      runBinds_no_panic getenv uriOk tg_secret _ hsafe]
    show ((get_public_urls net NGROK_APIS).filterMap
        (fun p => (sentOf (bind_webhook getenv uriOk p.1 p.2 tg_secret)).map
          (fun r => (p.1, r)))).filter (fun b => b.1 == n) = [(n, req)]
    rw [filterMap_key_filter,
      filter_key_of_nodup _ n u (get_public_urls_keys_nodup net NGROK_APIS) hmap]
    simp [List.filterMap_cons, sentOf, htok]
  · rw [bind_webhook_sent_iff] at htok
    obtain ⟨t, _, _, _, rfl⟩ := htok
    rfl

/-- Witness for C3's amended claim: Scenario D with a well-formed token —
both sources report port 9977, with public URLs `A` then `B`; exactly one
bind call is made, using `B`. -/
theorem last_tunnel_wins_witness :
    mapLookup (get_public_urls scenarioDNet NGROK_APIS) "gpt4o" = some "B" ∧
    ((main scenarioDEnv spaceUriOk scenarioDNet
        (fun _ => NetResult.success)).binds.filter (fun b => b.1 == "gpt4o"))
      = [("gpt4o", scenarioDReq)] ∧
    scenarioDReq.bodyUrl = "B" ++ "/webhook" :=
  last_tunnel_wins scenarioDEnv spaceUriOk scenarioDNet (fun _ => NetResult.success)
    "shh" "gpt4o" "B" scenarioDReq (by decide) (by decide) (by decide) (by decide)
    (by decide)

/-- C5: a discovered service whose `BOT_TOKEN_<NAME>` variable is absent or
empty receives no bind POST — it is skipped — and the bind list is exactly
what the remaining services produce, unaffected. -/
theorem missing_token_skips (getenv : String → Option String) (uriOk : String → Bool)
    (net : String → SourceEnv) (bindNet : BindRequest → NetResult) (tg_secret n : String)
    (hsec : getenv "TG_SECRET" = some tg_secret)
    (htok : getenv ("BOT_TOKEN_" ++ asciiUpper n) = none ∨
            getenv ("BOT_TOKEN_" ++ asciiUpper n) = some "") :
    (∀ r : BindRequest, (n, r) ∉ (main getenv uriOk net bindNet).binds) ∧
    runBinds getenv uriOk tg_secret (get_public_urls net NGROK_APIS) =
      runBinds getenv uriOk tg_secret
        ((get_public_urls net NGROK_APIS).filter (fun p => !(p.1 == n))) := by
  have hskip : ∀ url, bind_webhook getenv uriOk n url tg_secret = BindOutcome.skipped :=
    fun url => bind_webhook_skipped getenv uriOk n url tg_secret htok
  constructor
  · intro r hr
    rw [main_binds getenv uriOk net bindNet tg_secret hsec] at hr
    obtain ⟨url, hmem, hsent⟩ := mem_runBinds_sent getenv uriOk tg_secret _ n r hr
    rw [hskip url] at hsent
    cases hsent
  · generalize get_public_urls net NGROK_APIS = urls
    induction urls with
    | nil => rfl
    | cons x xs ih =>
      by_cases hx : x.1 = n
      · have hbx : bind_webhook getenv uriOk x.1 x.2 tg_secret = BindOutcome.skipped := by
          rw [hx]; exact hskip x.2
        rw [List.filter_cons_of_neg (by simp [hx])]
        simp only [runBinds, hbx]
        exact ih
      · rw [List.filter_cons_of_pos (by simp [hx])]
        simp only [runBinds]
        rw [ih]

/-- Witness for C5: in Scenario D's discovery, `gpt4o` has no token under
`c5Env`, so its bind is skipped and the bind phase equals that of the other
(here: none remaining) services. -/
theorem missing_token_skips_witness :
    runBinds c5Env spaceUriOk "shh" (get_public_urls scenarioDNet NGROK_APIS) =
      runBinds c5Env spaceUriOk "shh"
        ((get_public_urls scenarioDNet NGROK_APIS).filter (fun p => !(p.1 == "gpt4o"))) :=
  (missing_token_skips c5Env spaceUriOk scenarioDNet (fun _ => NetResult.success)
    "shh" "gpt4o" (by decide) (Or.inl (by decide))).2

/-- C6: a source that contributes nothing — invalid URL, transport failure,
non-2xx, malformed JSON, missing `tunnels` array, or only tunnels that are
dropped — never prevents discovery from the other sources: removing it leaves
the mapping unchanged, every source in the loop is visited (one trace entry
each), and each source is attempted at most once, exactly once whenever its
URL parses (always true of the two compiled-in URLs). -/
theorem source_failure_isolated (net : String → SourceEnv) (xs ys : List (String × String))
    (s : String × String) (hfail : sourceResolved (net s.2) = []) :
    get_public_urls net (xs ++ s :: ys) = get_public_urls net (xs ++ ys) ∧
    (∀ apis : List (String × String), (discoveryGets net apis).length = apis.length) ∧
    (∀ apis : List (String × String), ∀ p ∈ apis,
      sourceGetAttempts (net p.2) ≤ 1 ∧
      (net p.2 ≠ SourceEnv.uriError → sourceGetAttempts (net p.2) = 1)) := by
  refine ⟨?_, ?_, ?_⟩
  · rw [get_public_urls_eq_foldl, get_public_urls_eq_foldl]
    congr 1
    simp [resolvedPairs, hfail]
  · intro apis
    simp [discoveryGets]
  · intro apis p hp
    constructor
    · cases h : net p.2 <;> simp [sourceGetAttempts]
    · intro hne
      cases h : net p.2 with
      | uriError => exact absurd h hne
      | getError => rfl
      | badStatus => rfl
      | bodyError => rfl
      | notJson => rfl
      | json v => rfl

/-- Witness for C6: dropping the `alt` source, whose body is not JSON, leaves
the mapping produced by the `main` source alone. -/
theorem source_failure_isolated_witness :
    get_public_urls failNet [("main", "http://localhost:4040/api/tunnels"),
        ("alt", "http://localhost:4041/api/tunnels")] =
      get_public_urls failNet [("main", "http://localhost:4040/api/tunnels")] :=
  (source_failure_isolated failNet [("main", "http://localhost:4040/api/tunnels")] []
      ("alt", "http://localhost:4041/api/tunnels") (by decide)).1

/-- C7 counterexample: with `TG_SECRET` set to the empty string the process
does NOT abort — `env::var` returns `Ok("")`, `expect` passes — and both
discovery GETs are still issued, contrary to the claim that it aborts exactly
as when the variable is unset. -/
theorem empty_secret_proceeds_cex :
    (main emptySecretEnv spaceUriOk (fun _ => SourceEnv.getError)
        (fun _ => NetResult.success)).exit = ExitKind.normal ∧
    (main emptySecretEnv spaceUriOk (fun _ => SourceEnv.getError)
        (fun _ => NetResult.success)).gets = [1, 1] := by
  decide

/-- C7 amended: when `TG_SECRET` is set but empty the run proceeds exactly as
with any other set value — it does not abort, performs its discovery GETs,
and any bind it issues carries the empty string as `secret_token`; only an
unset variable aborts. -/
theorem empty_secret_proceeds (getenv : String → Option String) (uriOk : String → Bool)
    (net : String → SourceEnv) (bindNet : BindRequest → NetResult)
    (h : getenv "TG_SECRET" = some "") :
    (main getenv uriOk net bindNet).exit ≠ ExitKind.missingSecretPanic ∧
    (main getenv uriOk net bindNet).gets = discoveryGets net NGROK_APIS ∧
    ∀ b ∈ (main getenv uriOk net bindNet).binds, b.2.bodySecret = "" := by
  refine ⟨?_, main_gets getenv uriOk net bindNet "" h, ?_⟩
  · rw [main_exit_some getenv uriOk net bindNet "" h]
    by_cases hb : (runBinds getenv uriOk "" (get_public_urls net NGROK_APIS)).2
    · rw [if_pos hb]; intro hx; cases hx
    · rw [if_neg hb]; intro hx; cases hx
  · intro b hb
    rw [main_binds getenv uriOk net bindNet "" h] at hb
    obtain ⟨bn, br⟩ := b
    obtain ⟨url, hmem, hsent⟩ := mem_runBinds_sent getenv uriOk "" _ bn br hb
    rw [bind_webhook_sent_iff] at hsent
    obtain ⟨t, _, _, _, rfl⟩ := hsent
    rfl

/-- Witness for C7's amended claim at a concrete environment. -/
theorem empty_secret_proceeds_witness :
    (main emptySecretEnv spaceUriOk scenarioDNet (fun _ => NetResult.success)).exit
      ≠ ExitKind.missingSecretPanic ∧
    (main emptySecretEnv spaceUriOk scenarioDNet (fun _ => NetResult.success)).gets =
      discoveryGets scenarioDNet NGROK_APIS ∧
    ∀ b ∈ (main emptySecretEnv spaceUriOk scenarioDNet (fun _ => NetResult.success)).binds,
      b.2.bodySecret = "" :=
  empty_secret_proceeds emptySecretEnv spaceUriOk scenarioDNet (fun _ => NetResult.success)
    (by decide)

/-- C9: `get_public_urls` is total over its inputs — every error branch of
the source loop, a body without a `tunnels` array, a tunnel missing
`public_url` or `config.addr`, all leave the mapping unchanged, and port
extraction never fails (an `addr` without `:` yields the whole string), so
every malformed shape is absorbed by an `Option`/`Result` branch. -/
theorem discovery_absorbs_malformed (urls : List (String × String)) (v t : Json)
    (addr : String) (hv : tunnelsOf v = none)
    (ht : publicUrlOf t = none ∨ addrOf t = none) :
    processSource urls SourceEnv.uriError = urls ∧
    processSource urls SourceEnv.getError = urls ∧
    processSource urls SourceEnv.badStatus = urls ∧
    processSource urls SourceEnv.bodyError = urls ∧
    processSource urls SourceEnv.notJson = urls ∧
    processSource urls (SourceEnv.json v) = urls ∧
    processTunnel urls t = urls ∧
    portOf addr ≠ none := by
  refine ⟨rfl, rfl, rfl, rfl, rfl, ?_, ?_, portOf_ne_none addr⟩
  · rw [processSource_eq_resolved]
    simp [sourceResolved, hv]
  · rw [processTunnel_eq_service]
    have hts : tunnelService t = none := by
      unfold tunnelService
      rcases ht with h | h
      · rw [h]; rfl
      · cases hp : publicUrlOf t with
        | none => rfl
        | some pu =>
          simp only [Option.some_bind]
          rw [h]
          rfl
    rw [hts]

/-- Witness for C9 at concrete malformed inputs. -/
theorem discovery_absorbs_malformed_witness :
    processSource [] SourceEnv.uriError = [] ∧
    processSource [] SourceEnv.getError = [] ∧
    processSource [] SourceEnv.badStatus = [] ∧
    processSource [] SourceEnv.bodyError = [] ∧
    processSource [] SourceEnv.notJson = [] ∧
    processSource [] (SourceEnv.json Json.null) = [] ∧
    processTunnel [] Json.null = [] ∧
    portOf "localhost" ≠ none :=
  discovery_absorbs_malformed [] Json.null Json.null "localhost" rfl (Or.inl rfl)

end Rebind
